import Mathlib

/-
Verification of the agent-lifecycle and log-rate-limiting core of the
voice-todo repository.

Shallow embedding conventions:
- Wall-clock time is a monotone millisecond counter, modelled as `Nat`.
- JS `Map` objects are modelled as insertion-ordered association lists;
  `Map.set` on an existing key updates the entry in place, on a fresh key
  it appends.
- Fractional token arithmetic of the rate limiter is modelled with `ℚ`.
- `console.log` / `console.warn` side effects are modelled as the list of
  severities of the lines a call prints.
- External API calls (dispatch create/delete) are modelled by threading an
  explicit external state and a success/failure flag, and the embeddings
  count the number of external calls an operation performs.
-/

/-- Severity of a console line (also the `LogLevel` enum of the rate
limiter: ERROR = 0 > WARN > INFO > DEBUG). -/
inductive LogLevel
  | error
  | warn
  | info
  | debug
deriving DecidableEq, Repr

/-! ## Agent Activity Tracker (`lib/agent-tracker.ts`) -/

/-- One tracked dispatch, mirroring the `AgentActivity` interface. -/
structure AgentActivity where
  dispatchId : String
  roomName : String
  agentName : String
  createdAt : Nat
  lastActivityAt : Nat
  participantCount : Nat
  ttlExpiresAt : Option Nat
deriving DecidableEq, Repr

/-- The `AgentTracker` class state: the `activities` map (insertion-ordered,
keyed by `dispatchId` — every insertion stores the entry under its own
`dispatchId` field) and the configured default TTL. -/
structure AgentTracker where
  activities : List AgentActivity
  defaultTtlSeconds : Nat
deriving DecidableEq, Repr

/-- `new AgentTracker(ttlSeconds = 300)`: empty map. -/
def mkAgentTracker (ttlSeconds : Nat := 300) : AgentTracker :=
  { activities := [], defaultTtlSeconds := ttlSeconds }

/-- `this.activities.get(dispatchId)` (via `getActivityByDispatchId`). -/
def getActivityByDispatchId (tr : AgentTracker) (dispatchId : String) :
    Option AgentActivity :=
  tr.activities.find? (fun a => a.dispatchId == dispatchId)

/-- In-place update of the map entry whose key is `id` (JS object mutation
through the reference returned by `Map.get`). -/
def updateActivity (l : List AgentActivity) (id : String)
    (f : AgentActivity → AgentActivity) : List AgentActivity :=
  l.map (fun a => if a.dispatchId == id then f a else a)

/-- `trackActivity(dispatchId, roomName, agentName = 'task-assistant',
participantCount = 1)`: update the existing entry (refresh
`lastActivityAt`/`participantCount`, clear `ttlExpiresAt`) or insert a new
one with `ttlExpiresAt = null`.  Both branches `console.log` once. -/
def trackActivity (tr : AgentTracker) (dispatchId roomName : String)
    (agentName : String := "task-assistant") (participantCount : Nat := 1)
    (now : Nat := 0) : AgentTracker × List LogLevel :=
  match getActivityByDispatchId tr dispatchId with
  | some _ =>
      ({ tr with activities := (updateActivity tr.activities dispatchId
          (fun a => { a with lastActivityAt := now,
                             participantCount := participantCount,
                             ttlExpiresAt := none })) },
       [LogLevel.info])
  | none =>
      ({ tr with activities := tr.activities ++
          [{ dispatchId := dispatchId, roomName := roomName,
             agentName := agentName, createdAt := now, lastActivityAt := now,
             participantCount := participantCount, ttlExpiresAt := none }] },
       [LogLevel.info])

/-- `getActivity(roomName, agentName = 'task-assistant')`: linear scan over
the map values, first match wins. -/
def getActivity (tr : AgentTracker) (roomName : String)
    (agentName : String := "task-assistant") : Option AgentActivity :=
  tr.activities.find? (fun a => a.roomName == roomName && a.agentName == agentName)

/-- `markForCleanup(dispatchId, ttlSeconds?)`: unknown id → `console.warn`
and return (no state change); known id → `ttlExpiresAt := now + ttl*1000`,
`participantCount := 0`, one `console.log`. -/
def markForCleanup (tr : AgentTracker) (dispatchId : String)
    (ttlSeconds : Option Nat) (now : Nat) : AgentTracker × List LogLevel :=
  match getActivityByDispatchId tr dispatchId with
  | none => (tr, [LogLevel.warn])
  | some _ =>
      let ttl := ttlSeconds.getD tr.defaultTtlSeconds
      ({ tr with activities := (updateActivity tr.activities dispatchId
          (fun a => { a with ttlExpiresAt := some (now + ttl * 1000),
                             participantCount := 0 })) },
       [LogLevel.info])

/-- `cancelCleanup(dispatchId)`: if the entry exists, clear `ttlExpiresAt`
and refresh `lastActivityAt`, logging only when a TTL was actually pending;
if the entry is unknown, do nothing (and print nothing). -/
def cancelCleanup (tr : AgentTracker) (dispatchId : String) (now : Nat) :
    AgentTracker × List LogLevel :=
  match getActivityByDispatchId tr dispatchId with
  | none => (tr, [])
  | some a =>
      let hadTTL := a.ttlExpiresAt.isSome
      ({ tr with activities := (updateActivity tr.activities dispatchId
          (fun b => { b with ttlExpiresAt := none, lastActivityAt := now })) },
       if hadTTL then [LogLevel.info] else [])

/-- `getExpiredAgents()`: entries with a non-null `ttlExpiresAt ≤ now`. -/
def getExpiredAgents (tr : AgentTracker) (now : Nat) : List AgentActivity :=
  tr.activities.filter (fun a =>
    match a.ttlExpiresAt with
    | some e => decide (e ≤ now)
    | none => false)

/-- `removeAgent(dispatchId)`: log if the entry exists, then delete it
unconditionally. -/
def removeAgent (tr : AgentTracker) (dispatchId : String) :
    AgentTracker × List LogLevel :=
  let logs : List LogLevel :=
    match getActivityByDispatchId tr dispatchId with
    | some _ => [LogLevel.info]
    | none => []
  ({ tr with activities :=
      tr.activities.filter (fun a => !(a.dispatchId == dispatchId)) }, logs)

/-! ## Cleanup Worker (`lib/cleanup-worker.ts`) -/

/-- `CleanupWorker.cleanupAgent`: re-read the tracker entry; skip when it is
gone or its TTL was cleared (reactivated), skip when the TTL now lies in the
future; otherwise call the external `deleteDispatch` (whose success is the
`deleteSucceeds` flag) and only on success `removeAgent`.  The second
component counts external delete calls. -/
def cleanupAgent (tr : AgentTracker) (dispatchId : String) (now : Nat)
    (deleteSucceeds : Bool) : AgentTracker × Nat :=
  match getActivityByDispatchId tr dispatchId with
  | none => (tr, 0)
  | some act =>
      match act.ttlExpiresAt with
      | none => (tr, 0)
      | some expiry =>
          if now < expiry then (tr, 0)
          else if deleteSucceeds then ((removeAgent tr dispatchId).1, 1)
          else (tr, 1)

/-- The dispatch ids currently present in the tracker map. -/
def dispatchIds (tr : AgentTracker) : List String :=
  tr.activities.map (fun a => a.dispatchId)

/-- Tracker states reachable from a fresh tracker through the exported
mutating operations (and the Cleanup Worker's per-agent step). -/
inductive TrackerReachable : AgentTracker → Prop
  | init (ttl : Nat) : TrackerReachable (mkAgentTracker ttl)
  | track (tr : AgentTracker) (id room agent : String) (pc now : Nat) :
      TrackerReachable tr →
      TrackerReachable (trackActivity tr id room agent pc now).1
  | mark (tr : AgentTracker) (id : String) (ttlOpt : Option Nat) (now : Nat) :
      TrackerReachable tr →
      TrackerReachable (markForCleanup tr id ttlOpt now).1
  | cancel (tr : AgentTracker) (id : String) (now : Nat) :
      TrackerReachable tr → TrackerReachable (cancelCleanup tr id now).1
  | remove (tr : AgentTracker) (id : String) :
      TrackerReachable tr → TrackerReachable (removeAgent tr id).1
  | cleanup (tr : AgentTracker) (id : String) (now : Nat) (ok : Bool) :
      TrackerReachable tr → TrackerReachable (cleanupAgent tr id now ok).1

/-- Two `trackActivity` calls with distinct dispatch ids but the same
room and agent name, starting from a fresh tracker. -/
def dupTracker : AgentTracker :=
  (trackActivity (trackActivity (mkAgentTracker 300) "d1" "R" "a" 1 0).1
    "d2" "R" "a" 1 0).1

/-! ## Dispatch route (`app/api/livekit/dispatch-agent/route.ts`) -/

/-- The constant agent name of the route. -/
def AGENT_NAME : String := "task-assistant"

/-- A dispatch registered in the external LiveKit dispatch registry. -/
structure ExtDispatch where
  id : String
  roomName : String
  agentName : String
deriving DecidableEq, Repr

/-- The external dispatch registry plus a flag saying whether the next
`createDispatch` call fails (models a transient external failure). -/
structure ExtState where
  dispatches : List ExtDispatch
  nextId : Nat
  createFails : Bool
deriving DecidableEq, Repr

/-- `agentDispatchClient.createDispatch(roomName, agentName, ...)`:
`none` models the call throwing; on success the registry gains one
dispatch with a fresh id. -/
def createDispatch (ext : ExtState) (room agent : String) :
    Option (String × ExtState) :=
  if ext.createFails then none
  else
    let newId := "dispatch-" ++ toString ext.nextId
    let entry : ExtDispatch := { id := newId, roomName := room, agentName := agent }
    some (newId,
      { ext with
          dispatches := ext.dispatches ++ [entry]
          nextId := ext.nextId + 1 })

/-- JS falsiness of an environment variable / body field holding a string:
absent or the empty string. -/
def envFalsy : Option String → Bool
  | none => true
  | some s => s == ""

/-- Outcome of one `POST /api/livekit/dispatch-agent` request body. -/
inductive PostResult
  | badRequest
  | misconfigured
  | ok (dispatchId : String)
  | serverError
deriving DecidableEq, Repr

/-- The observable effect of one `POST` call: the HTTP-level result, the
final external registry, the number of external `createDispatch` attempts
made, and the number of `trackActivity` calls made on the tracker.  The
source route performs exactly one `createDispatch` attempt on the happy
path (there is no retry loop) and never references the tracker, so
`trackerCalls` is always zero. -/
structure PostOutcome where
  result : PostResult
  ext : ExtState
  createCalls : Nat
  trackerCalls : Nat
deriving DecidableEq, Repr

/-- The `POST` handler: validate `roomName` (missing / non-string / empty →
400), validate the three LiveKit credentials (any falsy → 500
misconfigured), then call `createDispatch` once; a throw is caught and
reported as a 500 server error. -/
def dispatchAgentPOST (roomName : Option String) (apiKey apiSecret wsUrl : Option String)
    (ext : ExtState) : PostOutcome :=
  match roomName with
  | none => { result := PostResult.badRequest, ext := ext, createCalls := 0, trackerCalls := 0 }
  | some room =>
      if room == "" then
        { result := PostResult.badRequest, ext := ext, createCalls := 0, trackerCalls := 0 }
      else if envFalsy apiKey || envFalsy apiSecret || envFalsy wsUrl then
        { result := PostResult.misconfigured, ext := ext, createCalls := 0, trackerCalls := 0 }
      else
        match createDispatch ext room AGENT_NAME with
        | none =>
            { result := PostResult.serverError, ext := ext, createCalls := 1, trackerCalls := 0 }
        | some (newId, ext1) =>
            { result := PostResult.ok newId, ext := ext1, createCalls := 1, trackerCalls := 0 }

/-- An external registry already holding exactly one dispatch for room
`"R1"` by the route's agent. -/
def extWithOne : ExtState :=
  { dispatches := [{ id := "existing-dispatch", roomName := "R1",
                     agentName := "task-assistant" }],
    nextId := 7, createFails := false }

/-- An external registry whose create call fails. -/
def extFailing : ExtState := { dispatches := [], nextId := 0, createFails := true }

/-! ## Log Rate Limiter (`log-rate-limiter.ts`) -/

/-- One `AggregatedMessage` record of the limiter. -/
structure AggregatedMessage where
  count : Nat
  firstSeen : Nat
  lastSeen : Nat
  level : LogLevel
deriving DecidableEq, Repr

/-- The `droppedByLevel` map of the limiter (initialised with all four
levels at 0, so modelled as a total record). -/
structure DroppedByLevel where
  err : Nat
  wrn : Nat
  inf : Nat
  dbg : Nat
deriving DecidableEq, Repr

/-- The `LogRateLimiter` state.  Token arithmetic is exact (`ℚ`); time is a
monotone millisecond counter. -/
structure RLState where
  maxLogsPerSecond : ℚ
  bucketSize : ℚ
  tokens : ℚ
  lastRefillTime : Nat
  droppedCount : Nat
  droppedByLevel : DroppedByLevel
  messageAggregation : List (String × AggregatedMessage)
  lastAggregationCleanup : Nat
deriving DecidableEq, Repr

/-- `new LogRateLimiter(maxLogsPerSecond = 400)`: bucket capacity equals the
rate, the bucket starts full, dropped counters start at 0. -/
def mkLogRateLimiter (maxLogsPerSecond : ℚ) (now : Nat) : RLState :=
  { maxLogsPerSecond := maxLogsPerSecond
    bucketSize := maxLogsPerSecond
    tokens := maxLogsPerSecond
    lastRefillTime := now
    droppedCount := 0
    droppedByLevel := { err := 0, wrn := 0, inf := 0, dbg := 0 }
    messageAggregation := []
    lastAggregationCleanup := now }

/-- `refillTokens()`: add `elapsedSeconds * maxLogsPerSecond`, capped at the
bucket size, and stamp the refill time. -/
def refillTokens (st : RLState) (now : Nat) : RLState :=
  let elapsedMs : Nat := now - st.lastRefillTime
  let elapsedSeconds : ℚ := (elapsedMs : ℚ) / 1000
  let tokensToAdd : ℚ := elapsedSeconds * st.maxLogsPerSecond
  { st with tokens := min st.bucketSize (st.tokens + tokensToAdd),
            lastRefillTime := now }

/-- Whether `pat` matches at the head of `text`. -/
def matchHere : List Char → List Char → Bool
  | [], _ => true
  | _ :: _, [] => false
  | p :: ps, c :: cs => p == c && matchHere ps cs

/-- Whether `pat` occurs as a contiguous substring of `text`. -/
def hasSub (pat : List Char) : List Char → Bool
  | [] => matchHere pat []
  | c :: cs => matchHere pat (c :: cs) || hasSub pat cs

/-- ASCII lowercasing of one character (enough for the ASCII-only
aggregation patterns and the `/i` regex flag). -/
def lowerChar (c : Char) : Char :=
  if 64 < c.toNat && c.toNat < 91 then Char.ofNat (c.toNat + 32) else c

/-- The limiter's `aggregationPatterns`: the four case-insensitive regexes
`/process memory usage/i`, `/connection event/i`,
`/participant (connected|disconnected)/i`, `/health check/i`, i.e. the five
literal substrings below matched against the lowercased message. -/
def aggregationPatterns : List String :=
  ["process memory usage", "connection event", "participant connected",
   "participant disconnected", "health check"]

/-- `shouldAggregate(message)`: does any pattern match the message. -/
def shouldAggregate (message : String) : Bool :=
  aggregationPatterns.any
    (fun p => hasSub p.toList (message.toList.map lowerChar))

/-- Replace every maximal run of digits with a single `'N'` (the source's
`.replace(/\d+/g, 'N')`); the flag says whether we are inside a run. -/
def squashDigitsAux : Bool → List Char → List Char
  | _, [] => []
  | inRun, c :: cs =>
      if c.isDigit then
        if inRun then squashDigitsAux true cs
        else 'N' :: squashDigitsAux true cs
      else c :: squashDigitsAux false cs

/-- `getAggregationKey(message)`: digit runs become `'N'`, then the key is
truncated to 100 characters.  (The source additionally replaces ISO
timestamps afterwards, but after the digit replacement no digit remains, so
that second replacement can never match.) -/
def getAggregationKey (message : String) : String :=
  ⟨(squashDigitsAux false message.toList).take 100⟩

/-- `aggregateMessage`: bump the counter for `key`, or start it at 1.  A JS
`Map.set` on an existing key updates in place; a fresh key appends. -/
def aggregateMessage (agg : List (String × AggregatedMessage)) (key : String)
    (now : Nat) (level : LogLevel) : List (String × AggregatedMessage) :=
  match agg with
  | [] => [(key, { count := 1, firstSeen := now, lastSeen := now, level := level })]
  | (k, a) :: rest =>
      if k == key then
        (k, { a with count := a.count + 1, lastSeen := now }) :: rest
      else (k, a) :: aggregateMessage rest key now level

/-- The fixed aggregation window (60 s). -/
def aggregationWindowMs : Nat := 60000

/-- `flushAggregatedMessages()`: a no-op until a full window has elapsed;
then one summary line per aggregated message with `count > 1` (the emitted
summaries are returned as `(level, count, key)` triples) and the table is
cleared. -/
def flushAggregatedMessages (st : RLState) (now : Nat) :
    RLState × List (LogLevel × Nat × String) :=
  if now - st.lastAggregationCleanup < aggregationWindowMs then (st, [])
  else
    ({ st with lastAggregationCleanup := now, messageAggregation := [] },
     (st.messageAggregation.filter (fun p => decide (1 < p.2.count))).map
       (fun p => (p.2.level, p.2.count, p.1)))

/-- Bump the per-level dropped counter. -/
def incDropped (d : DroppedByLevel) : LogLevel → DroppedByLevel
  | LogLevel.error => { d with err := d.err + 1 }
  | LogLevel.warn => { d with wrn := d.wrn + 1 }
  | LogLevel.info => { d with inf := d.inf + 1 }
  | LogLevel.debug => { d with dbg := d.dbg + 1 }

/-- `shouldLog(level)`: refill, then ERROR is always admitted (consuming a
token only if one is available), while other levels are admitted only when
a token is available and otherwise counted as dropped. -/
def shouldLog (st : RLState) (now : Nat) (level : LogLevel) : RLState × Bool :=
  let st1 := refillTokens st now
  match level with
  | LogLevel.error =>
      if 1 ≤ st1.tokens then ({ st1 with tokens := st1.tokens - 1 }, true)
      else (st1, true)
  | _ =>
      if 1 ≤ st1.tokens then ({ st1 with tokens := st1.tokens - 1 }, true)
      else
        ({ st1 with droppedCount := st1.droppedCount + 1,
                    droppedByLevel := incDropped st1.droppedByLevel level },
         false)

/-- `log(level, message, ...)`: messages matching an aggregation pattern
are diverted to the aggregation table and never emitted directly
(returning without consulting the bucket); everything else goes through
`shouldLog`.  The boolean is whether the message was emitted. -/
def logRL (st : RLState) (now : Nat) (level : LogLevel) (message : String) :
    RLState × Bool :=
  if shouldAggregate message then
    ({ st with messageAggregation := (aggregateMessage st.messageAggregation
        (getAggregationKey message) now level) },
     false)
  else shouldLog st now level

/-- `resetDroppedCount()`. -/
def resetDroppedCount (st : RLState) : RLState :=
  { st with droppedCount := 0,
            droppedByLevel := { err := 0, wrn := 0, inf := 0, dbg := 0 } }

/-- The aggregated count currently recorded for `key`. -/
def aggCountL (l : List (String × AggregatedMessage)) (key : String) : Nat :=
  match l.find? (fun p => p.1 == key) with
  | some p => p.2.count
  | none => 0

/-- The aggregated count recorded for `key` in a limiter state. -/
def aggCount (st : RLState) (key : String) : Nat :=
  aggCountL st.messageAggregation key

/-- `n` successive `log` calls with the same level and message, all within
the same millisecond. -/
def logTimes : Nat → LogLevel → String → RLState → RLState
  | 0, _, _, st => st
  | n + 1, lvl, msg, st => logTimes n lvl msg (logRL st 0 lvl msg).1

/-- Limiter states reachable from the constructor through `log` calls at
any level, the periodic flush, and dropped-counter resets.  The
constructor argument is the configured non-negative logs-per-second rate. -/
inductive RLReachable : RLState → Prop
  | init (rate : ℚ) (now : Nat) (h : 0 ≤ rate) :
      RLReachable (mkLogRateLimiter rate now)
  | log (st : RLState) (now : Nat) (level : LogLevel) (message : String) :
      RLReachable st → RLReachable (logRL st now level message).1
  | flush (st : RLState) (now : Nat) :
      RLReachable st → RLReachable (flushAggregatedMessages st now).1
  | reset (st : RLState) :
      RLReachable st → RLReachable (resetDroppedCount st)

/-- A limiter state with an empty bucket (used to exercise the priority
path with zero tokens). -/
def emptyBucketState : RLState := { mkLogRateLimiter 400 0 with tokens := 0 }

/-- The limiter's documented invariant, strengthened with the constancy of
the configured rate and capacity needed to push it through every step:
`0 ≤ tokens ≤ bucketSize`. -/
def RLInv (st : RLState) : Prop :=
  0 ≤ st.maxLogsPerSecond ∧ 0 ≤ st.bucketSize ∧
    0 ≤ st.tokens ∧ st.tokens ≤ st.bucketSize

/-- A tracker holding the single freshly tracked dispatch `"d1"`. -/
def trOne : AgentTracker := (trackActivity (mkAgentTracker 300) "d1" "R" "a" 1 0).1

/-- `trOne` with `"d1"` marked for cleanup with a 1-second TTL at time 0,
so its entry carries `ttlExpiresAt = some 1000`. -/
def trMarked : AgentTracker := (markForCleanup trOne "d1" (some 1) 0).1

/-- A tracker holding `"d1"` (active) and `"d2"` (marked for cleanup,
expired after time 1000). -/
def trTwo : AgentTracker :=
  (markForCleanup (trackActivity trOne "d2" "S" "a" 1 0).1 "d2" (some 1) 0).1

/-! ## Helper lemmas about the tracker map -/

/-- In-place update commutes with key lookup: looking up `id` after
`updateActivity` returns the updated entry. -/
theorem find_updateActivity (l : List AgentActivity) (id : String)
    (f : AgentActivity → AgentActivity)
    (hf : ∀ a, (f a).dispatchId = a.dispatchId) :
    (updateActivity l id f).find? (fun a => a.dispatchId == id) =
      (l.find? (fun a => a.dispatchId == id)).map f := by
  induction l with
  | nil => rfl
  | cons b rest ih =>
    simp only [updateActivity, List.map_cons]
    by_cases hb : (b.dispatchId == id) = true
    · have e1 : (f b :: List.map (fun a => if a.dispatchId == id then f a else a) rest).find?
          (fun a => a.dispatchId == id) = some (f b) :=
        List.find?_cons_of_pos _ (by simpa [hf b] using hb)
      have e2 : (b :: rest).find? (fun a => a.dispatchId == id) = some b :=
        List.find?_cons_of_pos _ hb
      rw [if_pos hb, e1, e2]
      rfl
    · have e1 : (b :: List.map (fun a => if a.dispatchId == id then f a else a) rest).find?
          (fun a => a.dispatchId == id) =
          (List.map (fun a => if a.dispatchId == id then f a else a) rest).find?
            (fun a => a.dispatchId == id) :=
        List.find?_cons_of_neg _ (by simpa using hb)
      have e2 : (b :: rest).find? (fun a => a.dispatchId == id) =
          rest.find? (fun a => a.dispatchId == id) :=
        List.find?_cons_of_neg _ (by simpa using hb)
      rw [if_neg hb, e1, e2]
      exact ih

/-- In-place update leaves the list of keys unchanged. -/
theorem keys_updateActivity (l : List AgentActivity) (id : String)
    (f : AgentActivity → AgentActivity)
    (hf : ∀ a, (f a).dispatchId = a.dispatchId) :
    (updateActivity l id f).map (fun a => a.dispatchId) =
      l.map (fun a => a.dispatchId) := by
  induction l with
  | nil => rfl
  | cons b rest ih =>
    simp only [updateActivity, List.map_cons] at ih ⊢
    by_cases hb : (b.dispatchId == id) = true
    · rw [if_pos hb, hf b, ih]
    · rw [if_neg hb, ih]

/-- A failed lookup means the key is absent from the key list. -/
theorem not_mem_dispatchIds_of_find_none {tr : AgentTracker} {id : String}
    (h : getActivityByDispatchId tr id = none) : id ∉ dispatchIds tr := by
  intro hmem
  rcases List.mem_map.mp hmem with ⟨a, ha, rfl⟩
  have hall := List.find?_eq_none.mp h a ha
  simp at hall

/-- Every entry for `id` carries `ttlExpiresAt = none` after a
`trackActivity` call for `id` (the reactivation path of the race). -/
theorem trackActivity_ttl_cleared (tr : AgentTracker)
    (id room agent : String) (pc now : Nat) :
    ∀ a ∈ (trackActivity tr id room agent pc now).1.activities,
      a.dispatchId = id → a.ttlExpiresAt = none := by
  intro a ha haid
  unfold trackActivity at ha
  cases hfind : getActivityByDispatchId tr id with
  | some b =>
    rw [hfind] at ha
    simp only [updateActivity] at ha
    rcases List.mem_map.mp ha with ⟨c, _, rfl⟩
    by_cases hcid : (c.dispatchId == id) = true
    · simp [hcid]
    · rw [if_neg hcid] at haid ⊢
      exact absurd (by simpa using haid) (by simpa using hcid)
  | none =>
    rw [hfind] at ha
    simp only [List.mem_append, List.mem_singleton] at ha
    rcases ha with h1 | rfl
    · have hall := List.find?_eq_none.mp hfind a h1
      exact absurd (by simpa using haid) (by simpa using hall)
    · rfl

/-- An in-place update (with a key-preserving update function) keeps the
key list, hence its uniqueness. -/
theorem nodup_updateActivity (tr : AgentTracker) (id : String)
    (f : AgentActivity → AgentActivity)
    (hf : ∀ a, (f a).dispatchId = a.dispatchId)
    (h : (dispatchIds tr).Nodup) :
    (dispatchIds { tr with activities := updateActivity tr.activities id f }).Nodup := by
  dsimp only [dispatchIds]
  rw [keys_updateActivity tr.activities id f hf]
  exact h

/-- `trackActivity` preserves uniqueness of the dispatch-id keys. -/
theorem nodup_trackActivity (tr : AgentTracker) (id room agent : String)
    (pc now : Nat) (h : (dispatchIds tr).Nodup) :
    (dispatchIds (trackActivity tr id room agent pc now).1).Nodup := by
  unfold trackActivity
  cases hfind : getActivityByDispatchId tr id with
  | some a =>
    exact nodup_updateActivity tr id _ (fun _ => rfl) h
  | none =>
    have hnot : id ∉ dispatchIds tr := not_mem_dispatchIds_of_find_none hfind
    dsimp only [dispatchIds] at h hnot ⊢
    rw [List.map_append]
    rw [List.nodup_append]
    refine ⟨h, List.nodup_singleton id, ?_⟩
    intro x hx hx1
    rcases List.mem_singleton.mp hx1 with rfl
    exact hnot hx

/-- `markForCleanup` preserves uniqueness of the dispatch-id keys. -/
theorem nodup_markForCleanup (tr : AgentTracker) (id : String)
    (ttlOpt : Option Nat) (now : Nat) (h : (dispatchIds tr).Nodup) :
    (dispatchIds (markForCleanup tr id ttlOpt now).1).Nodup := by
  unfold markForCleanup
  cases hfind : getActivityByDispatchId tr id with
  | none => exact h
  | some a => exact nodup_updateActivity tr id _ (fun _ => rfl) h

/-- `cancelCleanup` preserves uniqueness of the dispatch-id keys. -/
theorem nodup_cancelCleanup (tr : AgentTracker) (id : String) (now : Nat)
    (h : (dispatchIds tr).Nodup) :
    (dispatchIds (cancelCleanup tr id now).1).Nodup := by
  unfold cancelCleanup
  cases hfind : getActivityByDispatchId tr id with
  | none => exact h
  | some a => exact nodup_updateActivity tr id _ (fun _ => rfl) h

/-- `removeAgent` preserves uniqueness of the dispatch-id keys. -/
theorem nodup_removeAgent (tr : AgentTracker) (id : String)
    (h : (dispatchIds tr).Nodup) :
    (dispatchIds (removeAgent tr id).1).Nodup := by
  have hsub : ((tr.activities.filter (fun a => !(a.dispatchId == id))).map
      (fun a => a.dispatchId)).Sublist (tr.activities.map (fun a => a.dispatchId)) :=
    List.Sublist.map _ (List.filter_sublist tr.activities)
  exact h.sublist hsub

/-- `cleanupAgent` preserves uniqueness of the dispatch-id keys. -/
theorem nodup_cleanupAgent (tr : AgentTracker) (id : String) (now : Nat)
    (ok : Bool) (h : (dispatchIds tr).Nodup) :
    (dispatchIds (cleanupAgent tr id now ok).1).Nodup := by
  unfold cleanupAgent
  cases hfind : getActivityByDispatchId tr id with
  | none => exact h
  | some a =>
    dsimp only
    cases a.ttlExpiresAt with
    | none => exact h
    | some e =>
      dsimp only
      by_cases he : now < e
      · rw [if_pos he]
        exact h
      · rw [if_neg he]
        cases ok with
        | true => exact nodup_removeAgent tr id h
        | false => exact h

/-- Claim C1 (amended): the tracker keys its map by `dispatchId`, so every
reachable tracker state holds at most one `AgentActivity` entry per
`dispatchId` — not per `(roomName, agentName)` pair, which distinct
dispatch ids for the same room and agent can duplicate. -/
theorem tracker_dispatchId_unique :
    ∀ tr : AgentTracker, TrackerReachable tr → (dispatchIds tr).Nodup := by
  intro tr h
  induction h with
  | init ttl => exact List.nodup_nil
  | track tr id room agent pc now _ ih =>
    exact nodup_trackActivity tr id room agent pc now ih
  | mark tr id ttlOpt now _ ih => exact nodup_markForCleanup tr id ttlOpt now ih
  | cancel tr id now _ ih => exact nodup_cancelCleanup tr id now ih
  | remove tr id _ ih => exact nodup_removeAgent tr id ih
  | cleanup tr id now ok _ ih => exact nodup_cleanupAgent tr id now ok ih

/-- Witness for C1's amended theorem at a concrete reachable state. -/
theorem tracker_dispatchId_unique_witness : (dispatchIds dupTracker).Nodup :=
  tracker_dispatchId_unique dupTracker
    (TrackerReachable.track _ "d2" "R" "a" 1 0
      (TrackerReachable.track _ "d1" "R" "a" 1 0 (TrackerReachable.init 300)))

/-- Counterexample to C1 as stated: two `trackActivity` calls with distinct
dispatch ids but the same `(roomName, agentName)` pair leave the reachable
state `dupTracker` holding two entries for room `"R"` and agent `"a"`. -/
theorem trackActivity_duplicate_room_agent_pair :
    TrackerReachable dupTracker ∧
    (dupTracker.activities.filter
      (fun a => a.roomName == "R" && a.agentName == "a")).length = 2 := by
  constructor
  · exact TrackerReachable.track _ "d2" "R" "a" 1 0
      (TrackerReachable.track _ "d1" "R" "a" 1 0 (TrackerReachable.init 300))
  · decide

/-! ## Dispatch route theorems -/

/-- Claim C2 (amended): every valid connect request (well-formed room name,
complete credentials, external create succeeding) performs exactly one
external `createDispatch` call and returns the freshly created dispatch id
— regardless of how many dispatches already exist for the room.  The
response carries no `reused` flag and existing dispatches are never
consulted or reused. -/
theorem dispatch_always_creates :
    ∀ (room : String) (apiKey apiSecret wsUrl : Option String) (ext : ExtState),
      (room == "") = false →
      envFalsy apiKey = false → envFalsy apiSecret = false →
      envFalsy wsUrl = false → ext.createFails = false →
      (dispatchAgentPOST (some room) apiKey apiSecret wsUrl ext).result =
          PostResult.ok ("dispatch-" ++ toString ext.nextId) ∧
        (dispatchAgentPOST (some room) apiKey apiSecret wsUrl ext).createCalls = 1 ∧
        (dispatchAgentPOST (some room) apiKey apiSecret wsUrl ext).ext.dispatches =
          ext.dispatches ++ [{ id := "dispatch-" ++ toString ext.nextId,
                               roomName := room, agentName := AGENT_NAME }] := by
  intro room k s w ext hr hk hs hw hf
  simp [dispatchAgentPOST, createDispatch, hr, hk, hs, hw, hf]

/-- Witness for C2's amended theorem: one dispatch for `"R1"` already
exists externally, yet the route creates a second one. -/
theorem dispatch_always_creates_witness :
    extWithOne.createFails = false ∧
    (dispatchAgentPOST (some "R1") (some "key") (some "secret")
        (some "wss://example") extWithOne).result =
      PostResult.ok ("dispatch-" ++ toString extWithOne.nextId) :=
  ⟨rfl, (dispatch_always_creates "R1" (some "key") (some "secret")
      (some "wss://example") extWithOne (by decide) (by decide) (by decide)
      (by decide) rfl).1⟩

/-- Counterexample to C2 as stated: with exactly one dispatch registered
externally for room `"R1"`, the connect route still makes one external
create call and answers with a fresh dispatch id, not the existing one. -/
theorem connect_ignores_existing_dispatch :
    extWithOne.dispatches.length = 1 ∧
    (dispatchAgentPOST (some "R1") (some "key") (some "secret")
        (some "wss://example") extWithOne).createCalls = 1 ∧
    (dispatchAgentPOST (some "R1") (some "key") (some "secret")
        (some "wss://example") extWithOne).result = PostResult.ok "dispatch-7" ∧
    ("dispatch-7" = "existing-dispatch") = False := by
  refine ⟨by decide, by decide, by decide, by simp⟩

/-- Claim C3 (amended): a failing external creation is attempted exactly
once — there is no retry loop and no backoff — and surfaces as a server
error with the external registry unchanged; the route never calls
`trackActivity` (on any path), so no partial tracker state can arise. -/
theorem create_failure_semantics :
    (∀ (room : String) (k s w : Option String) (ext : ExtState),
        (room == "") = false → envFalsy k = false → envFalsy s = false →
        envFalsy w = false → ext.createFails = true →
        dispatchAgentPOST (some room) k s w ext =
          { result := PostResult.serverError, ext := ext,
            createCalls := 1, trackerCalls := 0 }) ∧
    (∀ (rn : Option String) (k s w : Option String) (ext : ExtState),
        (dispatchAgentPOST rn k s w ext).trackerCalls = 0) := by
  constructor
  · intro room k s w ext hr hk hs hw hf
    simp [dispatchAgentPOST, createDispatch, hr, hk, hs, hw, hf]
  · intro rn k s w ext
    cases rn with
    | none => rfl
    | some room =>
      unfold dispatchAgentPOST
      dsimp only
      split
      · rfl
      · split
        · rfl
        · cases createDispatch ext room AGENT_NAME with
          | none => rfl
          | some p => cases p with | mk nid e1 => rfl

/-- Witness for C3's amended theorem at a concrete failing registry. -/
theorem create_failure_semantics_witness :
    extFailing.createFails = true ∧
    dispatchAgentPOST (some "R1") (some "key") (some "secret")
        (some "wss://example") extFailing =
      { result := PostResult.serverError, ext := extFailing,
        createCalls := 1, trackerCalls := 0 } :=
  ⟨rfl, create_failure_semantics.1 "R1" (some "key") (some "secret")
      (some "wss://example") extFailing (by decide) (by decide) (by decide)
      (by decide) rfl⟩

/-- Counterexample to C3 as stated: when the external create call fails the
route gives up after a single attempt (one create call, no retries) and
returns a 500 error. -/
theorem create_failure_no_retry :
    (dispatchAgentPOST (some "R1") (some "key") (some "secret")
        (some "wss://example") extFailing).result = PostResult.serverError ∧
    (dispatchAgentPOST (some "R1") (some "key") (some "secret")
        (some "wss://example") extFailing).createCalls = 1 ∧
    ¬ 2 ≤ (dispatchAgentPOST (some "R1") (some "key") (some "secret")
        (some "wss://example") extFailing).createCalls := by
  refine ⟨by decide, by decide, by decide⟩

/-! ## Cleanup Worker theorems -/

/-- Claim C4: `cleanupAgent` re-verifies the tracker entry and (i) skips —
leaving the tracker untouched and making no external delete call — when the
entry is gone, its TTL was cleared (reactivated), or its TTL now lies in
the future; (ii) leaves the entry in the tracker when the external deletion
fails; (iii) removes the entry only after a successful external deletion;
and (iv) a `trackActivity` call for a dispatch clears its TTL, so the
dispatch is absent from every later `getExpiredAgents` scan. -/
theorem cleanup_reverify_and_failure_semantics :
    ∀ (tr : AgentTracker) (id : String) (now : Nat) (ok : Bool),
      (getActivityByDispatchId tr id = none →
          cleanupAgent tr id now ok = (tr, 0)) ∧
      (∀ a, getActivityByDispatchId tr id = some a → a.ttlExpiresAt = none →
          cleanupAgent tr id now ok = (tr, 0)) ∧
      (∀ a e, getActivityByDispatchId tr id = some a → a.ttlExpiresAt = some e →
          now < e → cleanupAgent tr id now ok = (tr, 0)) ∧
      (ok = false → (cleanupAgent tr id now ok).1 = tr) ∧
      ((cleanupAgent tr id now ok).1 ≠ tr →
          ok = true ∧ (cleanupAgent tr id now ok).1 = (removeAgent tr id).1) ∧
      (∀ (room agent : String) (pc t1 t2 : Nat) (a : AgentActivity),
          a ∈ getExpiredAgents (trackActivity tr id room agent pc t1).1 t2 →
          a.dispatchId ≠ id) := by
  intro tr id now ok
  refine ⟨?_, ?_, ?_, ?_, ?_, ?_⟩
  · intro h
    unfold cleanupAgent
    rw [h]
  · intro a ha httl
    unfold cleanupAgent
    rw [ha]
    dsimp only
    rw [httl]
  · intro a e ha httl he
    unfold cleanupAgent
    rw [ha]
    dsimp only
    rw [httl]
    dsimp only
    rw [if_pos he]
  · intro hok
    subst hok
    unfold cleanupAgent
    cases getActivityByDispatchId tr id with
    | none => rfl
    | some a =>
      dsimp only
      cases a.ttlExpiresAt with
      | none => rfl
      | some e =>
        dsimp only
        by_cases he : now < e
        · rw [if_pos he]
        · rw [if_neg he]
          rfl
  · intro hne
    unfold cleanupAgent at hne ⊢
    cases hfind : getActivityByDispatchId tr id with
    | none => rw [hfind] at hne; exact absurd rfl hne
    | some a =>
      rw [hfind] at hne
      dsimp only at hne ⊢
      cases httl : a.ttlExpiresAt with
      | none => rw [httl] at hne; exact absurd rfl hne
      | some e =>
        rw [httl] at hne
        dsimp only at hne ⊢
        by_cases he : now < e
        · rw [if_pos he] at hne; exact absurd rfl hne
        · rw [if_neg he] at hne ⊢
          cases ok with
          | false => exact absurd rfl hne
          | true => exact ⟨rfl, rfl⟩
  · intro room agent pc t1 t2 a ha haid
    have hmem := (List.mem_filter.mp ha).1
    have hpred := (List.mem_filter.mp ha).2
    have hclear := trackActivity_ttl_cleared tr id room agent pc t1 a hmem haid
    rw [hclear] at hpred
    simp at hpred

/-- Witness for C4 at concrete trackers: an unknown id, a reactivated
entry, an extended TTL, a failing deletion, a successful deletion, and a
reactivated dispatch missing from the expired scan. -/
theorem cleanup_reverify_and_failure_semantics_witness :
    cleanupAgent (mkAgentTracker 300) "d" 0 true = (mkAgentTracker 300, 0) ∧
    cleanupAgent trOne "d1" 0 true = (trOne, 0) ∧
    cleanupAgent trMarked "d1" 500 true = (trMarked, 0) ∧
    (cleanupAgent trMarked "d1" 5000 false).1 = trMarked ∧
    (cleanupAgent trMarked "d1" 5000 true).1 = (removeAgent trMarked "d1").1 ∧
    ({ dispatchId := "d2", roomName := "S", agentName := "a", createdAt := 0,
       lastActivityAt := 0, participantCount := 0,
       ttlExpiresAt := some 1000 } : AgentActivity).dispatchId ≠ "d1" :=
  ⟨(cleanup_reverify_and_failure_semantics (mkAgentTracker 300) "d" 0 true).1 rfl,
   (cleanup_reverify_and_failure_semantics trOne "d1" 0 true).2.1
     { dispatchId := "d1", roomName := "R", agentName := "a", createdAt := 0,
       lastActivityAt := 0, participantCount := 1, ttlExpiresAt := none }
     (by decide) rfl,
   (cleanup_reverify_and_failure_semantics trMarked "d1" 500 true).2.2.1
     { dispatchId := "d1", roomName := "R", agentName := "a", createdAt := 0,
       lastActivityAt := 0, participantCount := 0, ttlExpiresAt := some 1000 }
     1000 (by decide) rfl (by decide),
   (cleanup_reverify_and_failure_semantics trMarked "d1" 5000 false).2.2.2.1 rfl,
   ((cleanup_reverify_and_failure_semantics trMarked "d1" 5000 true).2.2.2.2.1
     (by decide)).2,
   (cleanup_reverify_and_failure_semantics trTwo "d1" 99999 true).2.2.2.2.2
     "R" "a" 1 10 99999
     { dispatchId := "d2", roomName := "S", agentName := "a", createdAt := 0,
       lastActivityAt := 0, participantCount := 0, ttlExpiresAt := some 1000 }
     (by decide)⟩

/-! ## Unknown-entity theorems -/

/-- Claim C8 (amended): `markForCleanup` on an unknown dispatch id is a
no-op that emits exactly one warning line and raises nothing;
`cancelCleanup` on an unknown dispatch id is a *silent* no-op (it emits no
line at all); and on a known dispatch id `markForCleanup` sets
`ttlExpiresAt = now + ttlSeconds·1000` (the tracker's default TTL when the
argument is omitted) and zeroes `participantCount`. -/
theorem unknown_dispatch_noop_and_mark_semantics :
    ∀ (tr : AgentTracker) (id : String) (ttlOpt : Option Nat) (now : Nat),
      (getActivityByDispatchId tr id = none →
          markForCleanup tr id ttlOpt now = (tr, [LogLevel.warn]) ∧
          cancelCleanup tr id now = (tr, [])) ∧
      (∀ a, getActivityByDispatchId tr id = some a →
          getActivityByDispatchId (markForCleanup tr id ttlOpt now).1 id =
            some { a with
                     ttlExpiresAt :=
                       some (now + (ttlOpt.getD tr.defaultTtlSeconds) * 1000),
                     participantCount := 0 }) := by
  intro tr id ttlOpt now
  constructor
  · intro h
    constructor
    · unfold markForCleanup
      rw [h]
    · unfold cancelCleanup
      rw [h]
  · intro a ha
    unfold markForCleanup
    rw [ha]
    dsimp only
    unfold getActivityByDispatchId at ha ⊢
    dsimp only
    rw [find_updateActivity tr.activities id
        (fun a => { a with
          ttlExpiresAt := some (now + (ttlOpt.getD tr.defaultTtlSeconds) * 1000),
          participantCount := 0 }) (fun _ => rfl), ha]
    rfl

/-- Witness for C8's amended theorem: an unknown id on a fresh tracker and
the known id `"d1"` marked with the default TTL at time 7. -/
theorem unknown_dispatch_noop_and_mark_semantics_witness :
    markForCleanup (mkAgentTracker 300) "ghost" none 0 =
      (mkAgentTracker 300, [LogLevel.warn]) ∧
    getActivityByDispatchId (markForCleanup trOne "d1" none 7).1 "d1" =
      some { dispatchId := "d1", roomName := "R", agentName := "a",
             createdAt := 0, lastActivityAt := 0, participantCount := 0,
             ttlExpiresAt := some (7 + 300 * 1000) } :=
  ⟨((unknown_dispatch_noop_and_mark_semantics (mkAgentTracker 300) "ghost"
      none 0).1 rfl).1,
   (unknown_dispatch_noop_and_mark_semantics trOne "d1" none 7).2
     { dispatchId := "d1", roomName := "R", agentName := "a", createdAt := 0,
       lastActivityAt := 0, participantCount := 1, ttlExpiresAt := none }
     (by decide)⟩

/-- Counterexample to C8 as stated: `cancelCleanup` on a dispatch the
tracker has never seen prints nothing — in particular no warning line —
while the claim promises a warning log for both operations. -/
theorem cancelCleanup_unknown_is_silent :
    (cancelCleanup (mkAgentTracker 300) "ghost" 0).2 = [] ∧
    (cancelCleanup (mkAgentTracker 300) "ghost" 0).2 ≠ [LogLevel.warn] := by
  refine ⟨rfl, by decide⟩

/-! ## Log Rate Limiter theorems -/

/-- Refilling preserves the bucket invariant: the added amount is
non-negative and the result is capped at the bucket size. -/
theorem RLInv_refillTokens {st : RLState} (now : Nat) (h : RLInv st) :
    RLInv (refillTokens st now) := by
  obtain ⟨h0, h1, h2, h3⟩ := h
  refine ⟨h0, h1, ?_, ?_⟩
  · show 0 ≤ min st.bucketSize
      (st.tokens + ((now - st.lastRefillTime : Nat) : ℚ) / 1000 * st.maxLogsPerSecond)
    have hadd : 0 ≤ ((now - st.lastRefillTime : Nat) : ℚ) / 1000 * st.maxLogsPerSecond :=
      mul_nonneg (by positivity) h0
    exact le_min h1 (by linarith)
  · exact min_le_left _ _

/-- Consuming one available token preserves the bucket invariant. -/
theorem RLInv_consume {st : RLState} (h : RLInv st) (ht : 1 ≤ st.tokens) :
    RLInv { st with tokens := st.tokens - 1 } := by
  obtain ⟨h0, h1, h2, h3⟩ := h
  refine ⟨h0, h1, ?_, ?_⟩
  · show 0 ≤ st.tokens - 1
    linarith
  · show st.tokens - 1 ≤ st.bucketSize
    linarith

/-- `shouldLog` preserves the bucket invariant at every level: it consumes
one token only when at least one is available. -/
theorem RLInv_shouldLog {st : RLState} (now : Nat) (level : LogLevel)
    (h : RLInv st) : RLInv (shouldLog st now level).1 := by
  have hr := RLInv_refillTokens now h
  unfold shouldLog
  cases level with
  | error =>
    dsimp only
    by_cases ht : 1 ≤ (refillTokens st now).tokens
    · rw [if_pos ht]
      exact RLInv_consume hr ht
    · rw [if_neg ht]
      exact hr
  | warn =>
    dsimp only
    by_cases ht : 1 ≤ (refillTokens st now).tokens
    · rw [if_pos ht]
      exact RLInv_consume hr ht
    · rw [if_neg ht]
      exact hr
  | info =>
    dsimp only
    by_cases ht : 1 ≤ (refillTokens st now).tokens
    · rw [if_pos ht]
      exact RLInv_consume hr ht
    · rw [if_neg ht]
      exact hr
  | debug =>
    dsimp only
    by_cases ht : 1 ≤ (refillTokens st now).tokens
    · rw [if_pos ht]
      exact RLInv_consume hr ht
    · rw [if_neg ht]
      exact hr

/-- `log` preserves the bucket invariant (the aggregation path never
touches the bucket). -/
theorem RLInv_logRL {st : RLState} (now : Nat) (level : LogLevel)
    (msg : String) (h : RLInv st) : RLInv (logRL st now level msg).1 := by
  unfold logRL
  by_cases ha : shouldAggregate msg = true
  · rw [if_pos ha]
    exact h
  · rw [if_neg ha]
    exact RLInv_shouldLog now level h

/-- Claim C6: in every reachable limiter state `0 ≤ tokens ≤ bucketSize`
(every refill caps at the bucket size, every consumption takes one token
only when available), and the bucket starts full. -/
theorem token_bucket_invariant :
    (∀ st : RLState, RLReachable st → 0 ≤ st.tokens ∧ st.tokens ≤ st.bucketSize) ∧
    (∀ (rate : ℚ) (now : Nat),
        (mkLogRateLimiter rate now).tokens = (mkLogRateLimiter rate now).bucketSize) := by
  constructor
  · intro st h
    have hinv : RLInv st := by
      induction h with
      | init rate now h0 => exact ⟨h0, h0, h0, le_refl _⟩
      | log st now level msg _ ih => exact RLInv_logRL now level msg ih
      | flush st now _ ih =>
        unfold flushAggregatedMessages
        by_cases hw : now - st.lastAggregationCleanup < aggregationWindowMs
        · rw [if_pos hw]
          exact ih
        · rw [if_neg hw]
          exact ih
      | reset st _ ih => exact ih
    exact ⟨hinv.2.2.1, hinv.2.2.2⟩
  · intro rate now
    rfl

/-- Witness for C6 at a concrete reachable state (fresh limiter at the
default 400 logs-per-second rate, after one log call). -/
theorem token_bucket_invariant_witness :
    0 ≤ (logRL (mkLogRateLimiter 400 0) 5 LogLevel.info "started").1.tokens ∧
    (logRL (mkLogRateLimiter 400 0) 5 LogLevel.info "started").1.tokens ≤
      (logRL (mkLogRateLimiter 400 0) 5 LogLevel.info "started").1.bucketSize :=
  token_bucket_invariant.1 _
    (RLReachable.log _ 5 LogLevel.info "started"
      (RLReachable.init 400 0 (by norm_num)))

/-- The priority arm of `shouldLog` always admits an ERROR message,
whatever the bucket holds. -/
theorem shouldLog_error_admits (st : RLState) (now : Nat) :
    (shouldLog st now LogLevel.error).2 = true := by
  unfold shouldLog
  dsimp only
  by_cases ht : 1 ≤ (refillTokens st now).tokens
  · rw [if_pos ht]
  · rw [if_neg ht]

/-- Claim C5 (amended): an ERROR-level message that does not match an
aggregation pattern is always emitted, even when the bucket is empty;
aggregation-pattern ERROR messages are diverted to the aggregation table
and are not emitted directly. -/
theorem error_never_dropped_when_not_aggregated :
    ∀ (st : RLState) (now : Nat) (msg : String),
      shouldAggregate msg = false →
      (logRL st now LogLevel.error msg).2 = true := by
  intro st now msg h
  unfold logRL
  rw [if_neg (by simp [h])]
  exact shouldLog_error_admits st now

/-- Witness for C5's amended theorem: a non-aggregated ERROR line on an
empty bucket is emitted. -/
theorem error_never_dropped_when_not_aggregated_witness :
    shouldAggregate "database write failed" = false ∧
    emptyBucketState.tokens = 0 ∧
    (logRL emptyBucketState 0 LogLevel.error "database write failed").2 = true :=
  ⟨by decide, rfl,
   error_never_dropped_when_not_aggregated emptyBucketState 0
     "database write failed" (by decide)⟩

/-- Counterexample to C5 as stated: an ERROR-level message matching the
noisy pattern `health check` is *not* emitted (it is diverted to the
aggregation table before the priority exemption is consulted), here with
the bucket empty. -/
theorem error_log_diverted_by_aggregation :
    emptyBucketState.tokens = 0 ∧
    (logRL emptyBucketState 0 LogLevel.error "health check").2 = false := by
  refine ⟨rfl, by decide⟩

/-- `aggregateMessage` bumps exactly the targeted counter by one. -/
theorem aggCountL_aggregateMessage (l : List (String × AggregatedMessage))
    (key : String) (now : Nat) (lvl : LogLevel) :
    aggCountL (aggregateMessage l key now lvl) key = aggCountL l key + 1 := by
  induction l with
  | nil =>
    simp [aggregateMessage, aggCountL, List.find?]
  | cons p rest ih =>
    obtain ⟨k, a⟩ := p
    by_cases hk : (k == key) = true
    · simp [aggregateMessage, hk, aggCountL, List.find?]
    · have hkf : (k == key) = false := by simpa using hk
      simp only [aggregateMessage, hkf, Bool.false_eq_true, if_false,
        aggCountL, List.find?] at ih ⊢
      exact ih

/-- Claim C7: a message matching a noisy pattern is never emitted
immediately, consumes no token, touches no drop counter, and bumps its
normalized-key counter by exactly one; 100 occurrences of such a message
within one window produce, at the next flush, exactly one summary line
carrying count 100 (and no immediate emissions). -/
theorem aggregation_behavior :
    (∀ (st : RLState) (now : Nat) (lvl : LogLevel) (msg : String),
        shouldAggregate msg = true →
        (logRL st now lvl msg).2 = false ∧
        (logRL st now lvl msg).1.tokens = st.tokens ∧
        (logRL st now lvl msg).1.droppedCount = st.droppedCount ∧
        (logRL st now lvl msg).1.droppedByLevel = st.droppedByLevel ∧
        aggCount (logRL st now lvl msg).1 (getAggregationKey msg) =
          aggCount st (getAggregationKey msg) + 1) ∧
    (flushAggregatedMessages
        (logTimes 100 LogLevel.info "health check" (mkLogRateLimiter 400 0))
        60000).2 = [(LogLevel.info, 100, "health check")] := by
  constructor
  · intro st now lvl msg h
    unfold logRL
    rw [if_pos h]
    refine ⟨rfl, rfl, rfl, rfl, ?_⟩
    exact aggCountL_aggregateMessage st.messageAggregation
      (getAggregationKey msg) now lvl
  · decide

/-- Witness for C7's universally quantified part at a concrete noisy
message. -/
theorem aggregation_behavior_witness :
    shouldAggregate "health check" = true ∧
    (logRL (mkLogRateLimiter 400 0) 0 LogLevel.info "health check").2 = false :=
  ⟨by decide,
   (aggregation_behavior.1 (mkLogRateLimiter 400 0) 0 LogLevel.info
     "health check" (by decide)).1⟩

/-- Claim C9: a message matching an aggregation pattern is never emitted
at log time (any level, ERROR included); the periodic flush emits summary
lines only for aggregated entries with count > 1 and then clears the
table; hence a single occurrence within a window is silently discarded —
concretely, one ERROR-level `"health check"` line followed by a flush
emits nothing at all. -/
theorem single_occurrence_aggregated_never_emitted :
    (∀ (st : RLState) (now : Nat) (lvl : LogLevel) (msg : String),
        shouldAggregate msg = true → (logRL st now lvl msg).2 = false) ∧
    (∀ (st : RLState) (now : Nat),
        aggregationWindowMs ≤ now - st.lastAggregationCleanup →
        (flushAggregatedMessages st now).1.messageAggregation = [] ∧
        ∀ x ∈ (flushAggregatedMessages st now).2, 1 < x.2.1) ∧
    ((logRL (mkLogRateLimiter 400 0) 0 LogLevel.error "health check").2 = false ∧
     (flushAggregatedMessages
        (logRL (mkLogRateLimiter 400 0) 0 LogLevel.error "health check").1
        60000).2 = []) := by
  refine ⟨?_, ?_, by decide, by decide⟩
  · intro st now lvl msg h
    unfold logRL
    rw [if_pos h]
  · intro st now h
    unfold flushAggregatedMessages
    rw [if_neg (not_lt.mpr h)]
    refine ⟨rfl, ?_⟩
    intro x hx
    rcases List.mem_map.mp hx with ⟨p, hp, rfl⟩
    have hpred := (List.mem_filter.mp hp).2
    simpa using hpred

/-- Witness for C9's quantified parts at concrete inputs. -/
theorem single_occurrence_aggregated_never_emitted_witness :
    (logRL (mkLogRateLimiter 400 0) 5 LogLevel.warn "connection event x").2 = false ∧
    (flushAggregatedMessages (mkLogRateLimiter 400 0) 60000).1.messageAggregation = [] :=
  ⟨single_occurrence_aggregated_never_emitted.1 (mkLogRateLimiter 400 0) 5
     LogLevel.warn "connection event x" (by decide),
   (single_occurrence_aggregated_never_emitted.2.1 (mkLogRateLimiter 400 0)
     60000 (by decide)).1⟩

/-- Claim C10: an ERROR-level, non-aggregated message logged while the
(refilled) bucket holds fewer than one token is admitted with no token
consumed: the resulting state is exactly the refilled state, whose dropped
counters, aggregation table — everything except `tokens` and the refill
timestamp — agree with the pre-call state. -/
theorem error_with_empty_bucket_frame :
    ∀ (st : RLState) (now : Nat) (msg : String),
      shouldAggregate msg = false →
      (refillTokens st now).tokens < 1 →
      logRL st now LogLevel.error msg = (refillTokens st now, true) ∧
      (refillTokens st now).droppedCount = st.droppedCount ∧
      (refillTokens st now).droppedByLevel = st.droppedByLevel ∧
      (refillTokens st now).messageAggregation = st.messageAggregation ∧
      (refillTokens st now).maxLogsPerSecond = st.maxLogsPerSecond ∧
      (refillTokens st now).bucketSize = st.bucketSize ∧
      (refillTokens st now).lastRefillTime = now := by
  intro st now msg hagg htok
  refine ⟨?_, rfl, rfl, rfl, rfl, rfl, rfl⟩
  unfold logRL
  rw [if_neg (by simp [hagg])]
  unfold shouldLog
  dsimp only
  rw [if_neg (not_le.mpr htok)]

/-- Witness for C10 at a concrete empty-bucket state. -/
theorem error_with_empty_bucket_frame_witness :
    shouldAggregate "database write failed" = false ∧
    (refillTokens emptyBucketState 0).tokens < 1 ∧
    logRL emptyBucketState 0 LogLevel.error "database write failed" =
      (refillTokens emptyBucketState 0, true) :=
  ⟨by decide,
   by simp [refillTokens, emptyBucketState, mkLogRateLimiter, min_lt_iff],
   (error_with_empty_bucket_frame emptyBucketState 0 "database write failed"
     (by decide)
     (by simp [refillTokens, emptyBucketState, mkLogRateLimiter, min_lt_iff])).1⟩
